import Mathlib

/- Shallow embedding of the GreenVulcano IoT communication library core:
   the Transport lifecycle/dispatch layer of src/gv/gvlib.py, the protocol
   translation layer of src/gv/protocols.py, and the concrete MQTT transport
   of src/gv/transports/mqtt.py.

   Modelling conventions:
   - Python dict (topic to callback-set) is an association list; Python set is a
     duplicate-free list in insertion order, with set.add appending only when the
     element is absent (membership by the decidable equality of the handle type,
     mirroring identity-based membership of Python function objects in a set).
   - Iteration over a Python set yields its elements in an interpreter-chosen,
     unspecified order; wherever the source iterates a set of callbacks we
     therefore quantify over an enumeration that is a permutation of the stored
     set (validDispatchOrder below).
   - Raising Python code is embedded with Except; a caught exception becomes a
     total function (the try/except in Transport.connect).
   - Driver calls (the abstract handle-connect / handle-subscription /
     handle-shutdown mechanics) are modelled by their outcome (Except E Unit) or
     recorded as events in a trace. -/

namespace GVLib

/-- The six event methods of TransportListener (gvlib.py lines 103-137). -/
inductive LMethod where
  | afterConnect
  | afterConnectionUnsuccessful
  | beforeDisconnect
  | afterConnectionLost
  | afterSubscribe
  | beforeUnsubscribe
  deriving DecidableEq

/-- TransportListener.Info (gvlib.py lines 84-101). The transport field of the
source always references the transport emitting the event; a single transport
is modelled, so only the optional topic and failure_reason fields are kept.
Both default to None in the source constructor. -/
structure Info (E : Type) where
  topic : Option String
  failureReason : Option E
  deriving DecidableEq

/-- One listener-method invocation performed by Transport.invoke-listeners
(gvlib.py lines 241-247): which listener, which of its methods, with which Info. -/
structure Notification (L E : Type) where
  listener : L
  method : LMethod
  info : Info E
  deriving DecidableEq

/-- The mutable state a Transport owns (gvlib.py lines 170-173): the private
callbacks dict (topic to set of callbacks) and the private listeners set.
Callback handles have type K, listeners type L. -/
structure TransportState (K L : Type) where
  callbacks : List (String × List K)
  listeners : List L
  deriving DecidableEq

/-- Transport base constructor (gvlib.py lines 170-173): callbacks is the empty
dict and listeners the empty set; nothing else happens. -/
def Transport.initState {K L : Type} : TransportState K L := ⟨[], []⟩

/-- Dict lookup, callbacks.get(topic): the set stored under the first matching
topic key, if any. -/
def lookupCallbacks {K : Type} : List (String × List K) → String → Option (List K)
  | [], _ => none
  | (t, s) :: rest, topic => if t = topic then some s else lookupCallbacks rest topic

/-- Python set.add: append the element only when it is not already a member. -/
def setAdd {K : Type} [DecidableEq K] (s : List K) (cb : K) : List K :=
  if cb ∈ s then s else s ++ [cb]

/-- The registry update of Transport.subscribe (gvlib.py lines 199-201): create
an empty set under the topic when the key is missing, then set-add the callback. -/
def addCallback {K : Type} [DecidableEq K] :
    List (String × List K) → String → K → List (String × List K)
  | [], topic, cb => [(topic, [cb])]
  | (t, s) :: rest, topic, cb =>
      if t = topic then (t, setAdd s cb) :: rest
      else (t, s) :: addCallback rest topic cb

/-- The set the dispatch loop of Transport.callback iterates (gvlib.py line 222):
callbacks.get(topic) or EMPTY-SET. A missing key gives None (falsy) and an empty
stored set is also falsy; both branches of the or-expression yield the empty set. -/
def dispatchSet {K : Type} (cbs : List (String × List K)) (topic : String) : List K :=
  match lookupCallbacks cbs topic with
  | none => []
  | some s => if s.isEmpty then [] else s

/-- Transport.invoke-listeners (gvlib.py lines 241-247): call the given listener
method once per registered listener, passing the same Info object. -/
def invokeListeners {K L E : Type} (st : TransportState K L) (m : LMethod)
    (info : Info E) : List (Notification L E) :=
  st.listeners.map (fun l => ⟨l, m, info⟩)

/-- How many of the notifications are addressed to listener l. -/
def notifCount {L E : Type} [DecidableEq L] (ns : List (Notification L E)) (l : L) : Nat :=
  (ns.map Notification.listener).count l

/-- Transport.connect (gvlib.py lines 175-188). The driver mechanics
handle-connect is modelled by its outcome. The try/except around it makes
connect total: on success every listener gets after-connect with Info(self)
(topic and failure_reason None); on any exception exc every listener gets
after-connection-unsuccessful with Info(self, failure_reason=exc), and the
exception is not re-raised. The registries are untouched in both branches. -/
def Transport.connect {K L E : Type} (st : TransportState K L)
    (handleConnect : Except E Unit) :
    TransportState K L × List (Notification L E) :=
  match handleConnect with
  | Except.ok _ => (st, invokeListeners st LMethod.afterConnect ⟨none, none⟩)
  | Except.error exc =>
      (st, invokeListeners st LMethod.afterConnectionUnsuccessful ⟨none, some exc⟩)

/-- Transport.subscribe (gvlib.py lines 190-204). Statement order of the source:
first the registry update (lines 199-201), then the driver mechanics
handle-subscription (line 202), then the after-subscribe notifications
(lines 203-204). An exception from the driver therefore propagates to the
caller (Except.error) while the registry keeps the update; notifications are
only produced on the success path. -/
def Transport.subscribe {K L E : Type} [DecidableEq K] (st : TransportState K L)
    (topic : String) (cb : K) (handleSubscription : Except E Unit) :
    TransportState K L × Except E (List (Notification L E)) :=
  let st' : TransportState K L := ⟨addCallback st.callbacks topic cb, st.listeners⟩
  match handleSubscription with
  | Except.error exc => (st', Except.error exc)
  | Except.ok _ =>
      (st', Except.ok (invokeListeners st' LMethod.afterSubscribe ⟨some topic, none⟩))

/-- Events observable while a shutdown call runs: a listener notification, the
base-class delegation to the driver teardown mechanics handle-shutdown, or the
direct paho-client disconnect call of the MQTT transport. -/
inductive ShutdownEvent (L E : Type) where
  | notify (n : Notification L E)
  | handleShutdown
  | clientDisconnect
  deriving DecidableEq

/-- Transport.shutdown (gvlib.py lines 206-214) as an event trace: first the
before-disconnect notification of every registered listener (Info(self), topic
and failure_reason None), then the driver teardown mechanics, unconditionally. -/
def Transport.shutdownTrace {K L E : Type} (st : TransportState K L) :
    List (ShutdownEvent L E) :=
  (invokeListeners st LMethod.beforeDisconnect (⟨none, none⟩ : Info E)).map
    ShutdownEvent.notify ++ [ShutdownEvent.handleShutdown]

/-- MqttTransport.shutdown (mqtt.py lines 72-73) as an event trace. The method
overrides Transport.shutdown entirely: its body is the single statement
client.disconnect(). It neither notifies listeners nor calls the base method. -/
def MqttTransport.shutdownTrace (L E : Type) : List (ShutdownEvent L E) :=
  [ShutdownEvent.clientDisconnect]

/-- The for-loop of Transport.callback (gvlib.py lines 223-224) over a given
enumeration of the callback set, with impl interpreting callback handles:
payload = cb(payload) rebinds the local, so each callback receives the value the
previous one returned. The trace records each callback with the argument it
received; the final value of the local payload is dead after the loop. -/
def runPipeline {K P : Type} (impl : K → P → P) : List K → P → List (K × P)
  | [], _ => []
  | c :: rest, payload => (c, payload) :: runPipeline impl rest (impl c payload)

/-- Transport.callback (gvlib.py lines 216-224). The source iterates the stored
set s in an interpreter-chosen order; the enumeration is passed as the order
argument, constrained by validDispatchOrder in the theorems. No statement of the
body mutates the registries, so the state is returned unchanged; the return
value of the chain is discarded (the method returns None). -/
def Transport.callback {K L P : Type} (st : TransportState K L) (topic : String)
    (order : List K) (impl : K → P → P) (payload : P) :
    TransportState K L × List (K × P) :=
  (st, runPipeline impl order payload)

/-- An enumeration the for-loop of Transport.callback may follow for the given
topic: any permutation of the stored dispatch set (Python set iteration order is
unspecified). -/
def validDispatchOrder {K L : Type} [DecidableEq K] (st : TransportState K L)
    (topic : String) (order : List K) : Prop :=
  List.Perm order (dispatchSet st.callbacks topic)

instance {K L : Type} [DecidableEq K] (st : TransportState K L) (topic : String)
    (order : List K) : Decidable (validDispatchOrder st topic order) :=
  inferInstanceAs (Decidable (List.Perm order (dispatchSet st.callbacks topic)))

/-- Python exception kinds the embedded fragments can raise. -/
inductive PyError where
  | nameError (nm : String)
  | typeError (msg : String)
  | keyError
  deriving DecidableEq

/-- Transport.add-listener (gvlib.py lines 226-233): set.add of the listener. -/
def Transport.addListener {K L : Type} [DecidableEq L] (st : TransportState K L)
    (l : L) : TransportState K L :=
  ⟨st.callbacks, if l ∈ st.listeners then st.listeners else st.listeners ++ [l]⟩

/-- Transport.remove-listener (gvlib.py lines 235-239): set.remove of the
listener, which raises KeyError when the element is not a member. -/
def Transport.removeListener {K L : Type} [DecidableEq L] (st : TransportState K L)
    (l : L) : Except PyError (TransportState K L) :=
  if l ∈ st.listeners then Except.ok ⟨st.callbacks, st.listeners.erase l⟩
  else Except.error PyError.keyError

/-- Well-formedness maintained by the API: every stored callback set and the
listener set are duplicate-free lists (they embed Python sets). -/
def WF {K L : Type} (st : TransportState K L) : Prop :=
  (∀ p ∈ st.callbacks, List.Nodup p.2) ∧ List.Nodup st.listeners

/-- DeviceInfo (gvlib.py lines 33-61): immutable id, name, ip, port record. -/
structure DeviceInfo where
  id : String
  nm : String
  ip : String
  port : Nat
  deriving DecidableEq

/-- Topic template devices of the SERVICES table (protocols.py line 41),
instantiated by percent-formatting with the device id. -/
def SERVICES.devices (device_id : String) : String :=
  "/devices/" ++ device_id

/-- Topic template devices_input of the SERVICES table (protocols.py line 42). -/
def SERVICES.devices_input (device_id : String) : String :=
  "/devices/" ++ device_id ++ "/input"

/-- Topic template sensors of the SERVICES table (protocols.py line 43). -/
def SERVICES.sensors (device_id sensor_id : String) : String :=
  "/devices/" ++ device_id ++ "/sensors/" ++ sensor_id

/-- Topic template actuators of the SERVICES table (protocols.py line 44). -/
def SERVICES.actuators (device_id actuator_id : String) : String :=
  "/devices/" ++ device_id ++ "/actuators/" ++ actuator_id

/-- Topic template actuators_input of the SERVICES table (protocols.py line 45). -/
def SERVICES.actuators_input (device_id actuator_id : String) : String :=
  "/devices/" ++ device_id ++ "/actuators/" ++ actuator_id ++ "/input"

/-- Topic template data of the SERVICES table (protocols.py line 46). -/
def SERVICES.data (device_id sensor_id : String) : String :=
  "/devices/" ++ device_id ++ "/sensors/" ++ sensor_id ++ "/output"

/-- Topic template status of the SERVICES table (protocols.py line 47). -/
def SERVICES.status (device_id : String) : String :=
  "/devices/" ++ device_id ++ "/status"

/-- Arguments of a Transport.send call as they reach the transport driver:
topic, payload, qos and retain (gvlib.py lines 249-262). -/
structure SendCall where
  topic : String
  payload : String
  qos : Nat
  retain : Bool
  deriving DecidableEq

/-- Python name resolution against a scope of local bindings: an unbound name
raises NameError. -/
def pyLookup (scope : List (String × String)) (nm : String) : Except PyError String :=
  match scope with
  | [] => Except.error (PyError.nameError nm)
  | (k, v) :: rest => if k = nm then Except.ok v else pyLookup rest nm

/-- Embeds GVProtocol_v1.send_status (protocols.py lines 59-62). The first
statement of the body (line 60) percent-formats the payload from the name
istatus, but the local scope of the call binds only the parameter status, so
evaluating the format operand raises NameError before the topic is resolved or
anything is sent. The continuation after the lookup embeds the remaining
statements as written: status payload, SERVICES status topic, and
transport.send(topic, payload) whose qos and retain parameters take their
declared defaults 0 and False. -/
def GVProtocolV1.sendStatus (device : DeviceInfo) (status : String) :
    Except PyError SendCall := do
  let v ← pyLookup [("status", status)] "istatus"
  let payload := "\x7b\"status\": \"" ++ v ++ "\"\x7d"
  let topic := SERVICES.status device.id
  Except.ok ⟨topic, payload, 0, false⟩

/-- GVComm.send_status (gvlib.py lines 347-352): plain forwarding of the status
to the protocol implementation. -/
def GVComm.sendStatus (device : DeviceInfo) (status : String) :
    Except PyError SendCall :=
  GVProtocolV1.sendStatus device status

/-- A Python value as passed positionally in the embedded calls. -/
inductive PyVal where
  | str (v : String)
  | int (v : Nat)
  | bool (v : Bool)
  deriving DecidableEq

/-- Python str() of an embedded value. -/
def pyStr : PyVal → String
  | PyVal.str v => v
  | PyVal.int v => toString v
  | PyVal.bool v => if v then "True" else "False"

/-- Embeds GVProtocol_v1.send_data (protocols.py lines 74-77) together with
Python positional-call semantics. The def statement declares exactly two
parameters besides self (id_ and val), so a call supplying any other number of
positional arguments raises TypeError before the body runs. The body resolves
the SERVICES data topic, formats the payload from str(val) and calls
transport.send(topic, payload), whose qos and retain parameters take their
declared defaults 0 and False: there is no way for a caller-supplied qos or
retain to reach the driver through this method. -/
def GVProtocolV1.sendDataCall (device : DeviceInfo) (args : List PyVal) :
    Except PyError SendCall :=
  match args with
  | [idArg, valArg] =>
      Except.ok ⟨SERVICES.data device.id (pyStr idArg),
        "\x7bvalue:\"" ++ pyStr valArg ++ "\"\x7d", 0, false⟩
  | _ => Except.error (PyError.typeError "send_data() takes 3 positional arguments")

/-- GVComm.send_data (gvlib.py lines 374-385): forwards id_, value, qos and
retain as four positional arguments to the protocol implementation. -/
def GVComm.sendData (device : DeviceInfo) (id_ : String) (value : String)
    (qos : Nat) (retain : Bool) : Except PyError SendCall :=
  GVProtocolV1.sendDataCall device
    [PyVal.str id_, PyVal.str value, PyVal.int qos, PyVal.bool retain]

/-- Side-effecting actions the MqttTransport constructor performs on the paho
client, in statement order (mqtt.py lines 39-64). -/
inductive MqttInitAction where
  | willSet (topic : String) (payload : String) (qos : Nat) (retain : Bool)
  | usernamePwSet (username : String) (password : String)
  | assignOnMessage
  | assignOnConnect
  | clientConnect (server : String) (port : Nat) (bindAddress : String)
  deriving DecidableEq

/-- Embeds MqttTransport constructor (mqtt.py lines 39-64) as the ordered list
of actions it performs on the freshly built paho client after the field
assignments and the base-class constructor call: set the will to the status
topic with an offline payload at qos 1 retained, optionally set credentials,
assign the message and connect handlers, and then call
client.connect(server, port, bind_address=device ip) before the constructor
returns. -/
def MqttTransport.initActions (device : DeviceInfo) (server : String) (port : Nat)
    (credentials : Option (String × String)) : List MqttInitAction :=
  [MqttInitAction.willSet (SERVICES.status device.id) "\x7b\"st\":false\x7d" 1 true] ++
  (match credentials with
   | some c => [MqttInitAction.usernamePwSet c.1 c.2]
   | none => []) ++
  [MqttInitAction.assignOnMessage, MqttInitAction.assignOnConnect,
   MqttInitAction.clientConnect server port device.ip]

/-- Concrete callback interpretation for the dispatch examples: handle 1 appends
"A" to the payload, any other handle appends "B". -/
def implAB (c : Nat) (s : String) : String :=
  if c = 1 then s ++ "A" else s ++ "B"

/-- Concrete callback interpretation that returns its payload unchanged. -/
def idImpl (_c : Nat) (p : Nat) : Nat := p

/-- Concrete transport state obtained by subscribing callback handle 1 and then
callback handle 2 for topic T on a fresh transport (drivers succeeding). -/
def stTwo : TransportState Nat Nat :=
  (Transport.subscribe
    ((Transport.subscribe (Transport.initState : TransportState Nat Nat) "T" 1
        (Except.ok () : Except Unit Unit)).1)
    "T" 2 (Except.ok () : Except Unit Unit)).1

/- Helper lemmas about the embedded operations. -/

theorem runPipeline_map_fst {K P : Type} (impl : K → P → P) (order : List K)
    (payload : P) : (runPipeline impl order payload).map Prod.fst = order := by
  induction order generalizing payload with
  | nil => rfl
  | cons c rest ih => simp [runPipeline, ih]

theorem runPipeline_get_zero {K P : Type} (impl : K → P → P) (order : List K)
    (payload : P) (h0 : 0 < (runPipeline impl order payload).length) :
    ((runPipeline impl order payload).get ⟨0, h0⟩).2 = payload := by
  cases order with
  | nil => simp [runPipeline] at h0
  | cons c rest => rfl

theorem runPipeline_get_succ {K P : Type} (impl : K → P → P) (order : List K)
    (payload : P) (i : Nat) (h1 : i + 1 < (runPipeline impl order payload).length) :
    ((runPipeline impl order payload).get ⟨i + 1, h1⟩).2 =
      impl ((runPipeline impl order payload).get ⟨i, Nat.lt_of_succ_lt h1⟩).1
        ((runPipeline impl order payload).get ⟨i, Nat.lt_of_succ_lt h1⟩).2 := by
  induction order generalizing payload i with
  | nil => simp [runPipeline] at h1
  | cons c rest ih =>
    cases i with
    | zero =>
      have hlen : 0 < (runPipeline impl rest (impl c payload)).length := by
        simpa [runPipeline] using h1
      simpa [runPipeline] using runPipeline_get_zero impl rest (impl c payload) hlen
    | succ j =>
      have hlen : j + 1 < (runPipeline impl rest (impl c payload)).length := by
        simpa [runPipeline] using h1
      simpa [runPipeline] using ih (impl c payload) j hlen

theorem mem_setAdd_self {K : Type} [DecidableEq K] (s : List K) (cb : K) :
    cb ∈ setAdd s cb := by
  by_cases h : cb ∈ s <;> simp [setAdd, h]

theorem setAdd_eq_of_mem {K : Type} [DecidableEq K] {s : List K} {cb : K}
    (h : cb ∈ s) : setAdd s cb = s := by
  simp [setAdd, h]

theorem setAdd_nodup {K : Type} [DecidableEq K] {s : List K} (cb : K)
    (h : List.Nodup s) : List.Nodup (setAdd s cb) := by
  by_cases hm : cb ∈ s
  · simpa [setAdd, hm] using h
  · rw [setAdd, if_neg hm]
    exact List.Nodup.append h (List.nodup_singleton cb)
      (by simpa [List.disjoint_singleton] using hm)

theorem setAdd_ne_nil {K : Type} [DecidableEq K] (s : List K) (cb : K) :
    setAdd s cb ≠ [] := by
  intro h
  exact absurd (h ▸ mem_setAdd_self s cb) (List.not_mem_nil cb)

theorem lookupCallbacks_addCallback_self {K : Type} [DecidableEq K]
    (cbs : List (String × List K)) (topic : String) (cb : K) :
    lookupCallbacks (addCallback cbs topic cb) topic =
      some (setAdd ((lookupCallbacks cbs topic).getD []) cb) := by
  induction cbs with
  | nil => simp [addCallback, lookupCallbacks, setAdd]
  | cons p rest ih =>
    obtain ⟨t, s⟩ := p
    by_cases h : t = topic
    · simp [addCallback, lookupCallbacks, h]
    · simp [addCallback, lookupCallbacks, h, ih]

theorem addCallback_eq_of_mem {K : Type} [DecidableEq K]
    {cbs : List (String × List K)} {topic : String} {cb : K} {s : List K}
    (hl : lookupCallbacks cbs topic = some s) (hm : cb ∈ s) :
    addCallback cbs topic cb = cbs := by
  induction cbs with
  | nil => simp [lookupCallbacks] at hl
  | cons p rest ih =>
    obtain ⟨t, s0⟩ := p
    by_cases h : t = topic
    · simp only [lookupCallbacks, if_pos h] at hl
      have hs : s0 = s := Option.some.inj hl
      subst hs
      simp [addCallback, h, setAdd_eq_of_mem hm]
    · simp only [lookupCallbacks, if_neg h] at hl
      simp [addCallback, h, ih hl]

theorem nodup_of_lookupCallbacks {K : Type} {cbs : List (String × List K)}
    {topic : String} {s : List K} (hwf : ∀ p ∈ cbs, List.Nodup p.2)
    (hl : lookupCallbacks cbs topic = some s) : List.Nodup s := by
  induction cbs with
  | nil => simp [lookupCallbacks] at hl
  | cons p rest ih =>
    obtain ⟨t, s0⟩ := p
    by_cases h : t = topic
    · simp only [lookupCallbacks, if_pos h] at hl
      have hs : s0 = s := Option.some.inj hl
      subst hs
      exact hwf (t, s0) (List.mem_cons_self _ _)
    · simp only [lookupCallbacks, if_neg h] at hl
      exact ih (fun q hq => hwf q (List.mem_cons_of_mem _ hq)) hl

theorem addCallback_nodup {K : Type} [DecidableEq K]
    {cbs : List (String × List K)} (topic : String) (cb : K)
    (hwf : ∀ p ∈ cbs, List.Nodup p.2) :
    ∀ p ∈ addCallback cbs topic cb, List.Nodup p.2 := by
  induction cbs with
  | nil =>
    intro p hp
    simp only [addCallback, List.mem_singleton] at hp
    simp [hp]
  | cons q rest ih =>
    obtain ⟨t, s0⟩ := q
    intro p hp
    by_cases h : t = topic
    · simp only [addCallback, if_pos h, List.mem_cons] at hp
      rcases hp with hp | hp
      · subst hp
        exact setAdd_nodup cb (hwf (t, s0) (List.mem_cons_self _ _))
      · exact hwf p (List.mem_cons_of_mem _ hp)
    · simp only [addCallback, if_neg h, List.mem_cons] at hp
      rcases hp with hp | hp
      · subst hp
        exact hwf (t, s0) (List.mem_cons_self _ _)
      · exact ih (fun q hq => hwf q (List.mem_cons_of_mem _ hq)) p hp

theorem dispatchSet_of_lookup_ne_nil {K : Type} {cbs : List (String × List K)}
    {topic : String} {s : List K} (hl : lookupCallbacks cbs topic = some s)
    (hne : s ≠ []) : dispatchSet cbs topic = s := by
  simp [dispatchSet, hl, List.isEmpty_iff, hne]

theorem mem_dispatchSet_addCallback {K : Type} [DecidableEq K]
    (cbs : List (String × List K)) (topic : String) (cb : K) :
    cb ∈ dispatchSet (addCallback cbs topic cb) topic := by
  have hl := lookupCallbacks_addCallback_self cbs topic cb
  rw [dispatchSet_of_lookup_ne_nil hl (setAdd_ne_nil _ cb)]
  exact mem_setAdd_self _ cb

theorem subscribe_fst {K L E : Type} [DecidableEq K] (st : TransportState K L)
    (topic : String) (cb : K) (r : Except E Unit) :
    (Transport.subscribe st topic cb r).1 =
      ⟨addCallback st.callbacks topic cb, st.listeners⟩ := by
  cases r <;> rfl

theorem notifCount_invokeListeners {K L E : Type} [DecidableEq L]
    (st : TransportState K L) (m : LMethod) (info : Info E) (l : L) :
    notifCount (invokeListeners st m info) l = st.listeners.count l := by
  unfold notifCount invokeListeners
  rw [List.map_map]
  show List.count l (List.map id st.listeners) = List.count l st.listeners
  rw [List.map_id]

/- Claim theorems. -/

/-- C1 counterexample: callback handles 1 and 2 are registered in that order for
topic T, yet the enumeration [2, 1] is a valid iteration of the stored Python
set (set iteration order is unspecified), and under it handle 1 receives "XB",
the return value of handle 2, not the original payload "X". The claim's
requirement that the first-registered callback receives the original payload is
therefore not guaranteed by the code. -/
theorem callback_order_counterexample :
    validDispatchOrder stTwo "T" [2, 1] ∧
    (Transport.callback stTwo "T" [2, 1] implAB "X").2 = [(2, "X"), (1, "XB")] ∧
    ("XB" : String) ≠ "X" :=
  ⟨by decide, by decide, by decide⟩

/-- C1 (amended): Transport.callback(topic, payload) feeds the payload through
the registered callbacks as a pipeline over whichever enumeration of the stored
set the interpreter chooses: the callbacks invoked are exactly those registered
for the topic, the first enumerated callback receives the original payload,
every later one receives the return value of its predecessor, the registries
are untouched and the final return value is discarded. Registration order is
not guaranteed (see the counterexample). -/
theorem callback_pipeline_threads_payload {K L P : Type} [DecidableEq K]
    (st : TransportState K L) (topic : String) (order : List K)
    (impl : K → P → P) (payload : P)
    (hord : validDispatchOrder st topic order) :
    Transport.callback st topic order impl payload = (st, runPipeline impl order payload) ∧
    (runPipeline impl order payload).map Prod.fst = order ∧
    (∀ c : K, c ∈ order ↔ c ∈ dispatchSet st.callbacks topic) ∧
    (∀ h0 : 0 < (runPipeline impl order payload).length,
      ((runPipeline impl order payload).get ⟨0, h0⟩).2 = payload) ∧
    ∀ (i : Nat) (h1 : i + 1 < (runPipeline impl order payload).length),
      ((runPipeline impl order payload).get ⟨i + 1, h1⟩).2 =
        impl ((runPipeline impl order payload).get ⟨i, Nat.lt_of_succ_lt h1⟩).1
          ((runPipeline impl order payload).get ⟨i, Nat.lt_of_succ_lt h1⟩).2 :=
  ⟨rfl, runPipeline_map_fst impl order payload,
    fun _ => hord.mem_iff,
    fun h0 => runPipeline_get_zero impl order payload h0,
    fun i h1 => runPipeline_get_succ impl order payload i h1⟩

/-- C1 witness: the amended pipeline theorem applied to the concrete
two-callback state under the enumeration [1, 2]: handle 1 receives "X" and
handle 2 receives "XA". -/
theorem callback_pipeline_threads_payload_witness :
    Transport.callback stTwo "T" [1, 2] implAB "X" = (stTwo, [(1, "X"), (2, "XA")]) := by
  have h := callback_pipeline_threads_payload stTwo "T" [1, 2] implAB "X" (by decide)
  exact h.1.trans (by decide)

/-- C2: Transport.connect never raises. With a driver whose connect mechanics
fails with exception e, connect returns normally (a total function in the
embedding: the try/except of gvlib.py lines 182-188 catches the driver error)
and every registered listener receives exactly one
after-connection-unsuccessful notification whose Info carries e as
failure_reason with topic unset; with a succeeding driver every registered
listener receives exactly one after-connect notification with topic and
failure_reason unset. The registries are unchanged in both cases. -/
theorem connect_never_raises_notifies_once {K L E : Type} [DecidableEq L]
    (st : TransportState K L) (l : L) (e : E)
    (hN : List.Nodup st.listeners) (hl : l ∈ st.listeners) :
    Transport.connect st (Except.error e) =
      (st, st.listeners.map
        (fun l0 => ⟨l0, LMethod.afterConnectionUnsuccessful, ⟨none, some e⟩⟩)) ∧
    notifCount (Transport.connect st (Except.error e)).2 l = 1 ∧
    Transport.connect st (Except.ok () : Except E Unit) =
      (st, st.listeners.map (fun l0 => ⟨l0, LMethod.afterConnect, ⟨none, none⟩⟩)) ∧
    notifCount (Transport.connect st (Except.ok () : Except E Unit)).2 l = 1 := by
  refine ⟨rfl, ?_, rfl, ?_⟩
  · show notifCount
      (invokeListeners st LMethod.afterConnectionUnsuccessful ⟨none, some e⟩) l = 1
    rw [notifCount_invokeListeners]
    exact List.count_eq_one_of_mem hN hl
  · show notifCount (invokeListeners st LMethod.afterConnect ⟨none, none⟩) l = 1
    rw [notifCount_invokeListeners]
    exact List.count_eq_one_of_mem hN hl

/-- C2 witness: the connect theorem applied to a transport with the single
registered listener 5 and a driver failing with exception 7. -/
theorem connect_never_raises_notifies_once_witness :
    Transport.connect (⟨[], [5]⟩ : TransportState Nat Nat) (Except.error 7) =
      ((⟨[], [5]⟩ : TransportState Nat Nat),
        [⟨5, LMethod.afterConnectionUnsuccessful, ⟨none, some 7⟩⟩]) ∧
    Transport.connect (⟨[], [5]⟩ : TransportState Nat Nat)
        (Except.ok () : Except Nat Unit) =
      ((⟨[], [5]⟩ : TransportState Nat Nat),
        [⟨5, LMethod.afterConnect, ⟨none, none⟩⟩]) ∧
    notifCount (Transport.connect (⟨[], [5]⟩ : TransportState Nat Nat)
      (Except.error 7)).2 5 = 1 := by
  have h := connect_never_raises_notifies_once
    (⟨[], [5]⟩ : TransportState Nat Nat) 5 7 (by decide) (by decide)
  exact ⟨h.1.trans (by decide), h.2.2.1.trans (by decide), h.2.1⟩

/-- C3: the base Transport constructor only creates empty registries, but the
MqttTransport constructor (mqtt.py line 62) calls
client.connect(server, port, bind_address=device ip) before returning: its
action trace contains a connection attempt, contradicting the claim (and the
explicit NOTE of gvlib.py lines 147-152) that construction performs no
connection attempt. -/
theorem mqtt_constructor_attempts_connection :
    (Transport.initState : TransportState Nat Nat) = ⟨[], []⟩ ∧
    MqttInitAction.clientConnect "broker.example" 1883 "10.0.0.5" ∈
      MqttTransport.initActions ⟨"dev1", "Device One", "10.0.0.5", 1000⟩
        "broker.example" 1883 none :=
  ⟨rfl, by decide⟩

/-- C4: the base Transport.shutdown delivers the before-disconnect notification
of every registered listener strictly before delegating to the driver teardown
(here: listener 7, notification at index 0, teardown at index 1), but
MqttTransport.shutdown (mqtt.py lines 72-73) overrides it with a bare
client.disconnect() whose trace contains no notification at all, so the claim
fails for the MQTT transport. -/
theorem mqtt_shutdown_skips_before_disconnect :
    (@Transport.shutdownTrace Nat Nat Unit ⟨[], [7]⟩) =
      [ShutdownEvent.notify ⟨7, LMethod.beforeDisconnect, ⟨none, none⟩⟩,
        ShutdownEvent.handleShutdown] ∧
    MqttTransport.shutdownTrace Nat Unit = [ShutdownEvent.clientDisconnect] :=
  ⟨rfl, rfl⟩

/-- C5: subscribing the same callback twice for the same topic stores it once:
the second subscribe leaves the registry unchanged, the stored dispatch set
holds the callback exactly once, and a delivery on the topic — the dispatch
loop run over any valid enumeration of the stored set — invokes the callback
exactly once, not twice. -/
theorem subscribe_twice_dedups {K L E P : Type} [DecidableEq K]
    (st : TransportState K L) (topic : String) (cb : K) (r1 r2 : Except E Unit)
    (hwf : ∀ p ∈ st.callbacks, List.Nodup p.2) :
    ((Transport.subscribe (Transport.subscribe st topic cb r1).1 topic cb r2).1).callbacks =
      ((Transport.subscribe st topic cb r1).1).callbacks ∧
    List.count cb (dispatchSet
      ((Transport.subscribe (Transport.subscribe st topic cb r1).1 topic cb
        r2).1).callbacks topic) = 1 ∧
    ∀ (order : List K) (impl : K → P → P) (payload : P),
      validDispatchOrder
        (Transport.subscribe (Transport.subscribe st topic cb r1).1 topic cb r2).1
        topic order →
      List.count cb (((Transport.callback
        (Transport.subscribe (Transport.subscribe st topic cb r1).1 topic cb r2).1
        topic order impl payload).2).map Prod.fst) = 1 := by
  have hl1 := lookupCallbacks_addCallback_self st.callbacks topic cb
  have hmem : cb ∈ setAdd ((lookupCallbacks st.callbacks topic).getD []) cb :=
    mem_setAdd_self _ _
  have heq : addCallback (addCallback st.callbacks topic cb) topic cb =
      addCallback st.callbacks topic cb := addCallback_eq_of_mem hl1 hmem
  have hnd : List.Nodup (setAdd ((lookupCallbacks st.callbacks topic).getD []) cb) := by
    cases hc : lookupCallbacks st.callbacks topic with
    | none => simpa [hc] using setAdd_nodup cb List.nodup_nil
    | some s0 => simpa [hc] using setAdd_nodup cb (nodup_of_lookupCallbacks hwf hc)
  have hds : dispatchSet (addCallback st.callbacks topic cb) topic =
      setAdd ((lookupCallbacks st.callbacks topic).getD []) cb :=
    dispatchSet_of_lookup_ne_nil hl1 (setAdd_ne_nil _ _)
  have hcount : List.count cb
      (setAdd ((lookupCallbacks st.callbacks topic).getD []) cb) = 1 :=
    List.count_eq_one_of_mem hnd hmem
  have hc1 : ((Transport.subscribe st topic cb r1).1).callbacks =
      addCallback st.callbacks topic cb := by rw [subscribe_fst]
  have hc2 : ((Transport.subscribe (Transport.subscribe st topic cb r1).1 topic cb
      r2).1).callbacks =
      addCallback ((Transport.subscribe st topic cb r1).1).callbacks topic cb := by
    rw [subscribe_fst]
  refine ⟨?_, ?_, ?_⟩
  · rw [hc2, hc1]
    exact heq
  · rw [hc2, hc1, heq, hds]
    exact hcount
  · intro order impl payload hord
    unfold validDispatchOrder at hord
    rw [hc2, hc1, heq, hds] at hord
    show List.count cb (List.map Prod.fst (runPipeline impl order payload)) = 1
    rw [runPipeline_map_fst]
    rw [List.Perm.count_eq hord cb]
    exact hcount

/-- C5 witness: the deduplication theorem applied to a fresh transport where
callback handle 1 is subscribed twice to topic t: the registry stores it once
and the dispatch run over the stored set invokes it once. -/
theorem subscribe_twice_dedups_witness :
    ((Transport.subscribe
      (Transport.subscribe (Transport.initState : TransportState Nat Nat) "t" 1
        (Except.ok () : Except Unit Unit)).1 "t" 1
      (Except.ok () : Except Unit Unit)).1).callbacks = [("t", [1])] ∧
    List.count 1 (dispatchSet
      ((Transport.subscribe
        (Transport.subscribe (Transport.initState : TransportState Nat Nat) "t" 1
          (Except.ok () : Except Unit Unit)).1 "t" 1
        (Except.ok () : Except Unit Unit)).1).callbacks "t") = 1 ∧
    List.count 1 (((Transport.callback
      (Transport.subscribe
        (Transport.subscribe (Transport.initState : TransportState Nat Nat) "t" 1
          (Except.ok () : Except Unit Unit)).1 "t" 1
        (Except.ok () : Except Unit Unit)).1
      "t" [1] idImpl 0).2).map Prod.fst) = 1 := by
  have h := @subscribe_twice_dedups Nat Nat Unit Nat _ Transport.initState "t" 1
    (Except.ok ()) (Except.ok ()) (by decide)
  exact ⟨h.1.trans (by decide), h.2.1, h.2.2 [1] idImpl 0 (by decide)⟩

/-- C6: a delivery for a topic with zero registered subscribers is a complete
no-op: the dispatch set is empty, so the only possible enumeration is empty,
the embedded Transport.callback raises nothing (it is total), invokes no
callback and returns the registries unchanged. -/
theorem callback_unknown_topic_noop {K L P : Type} [DecidableEq K]
    (st : TransportState K L) (topic : String) (impl : K → P → P) (payload : P)
    (hempty : dispatchSet st.callbacks topic = []) (order : List K)
    (hord : validDispatchOrder st topic order) :
    Transport.callback st topic order impl payload = (st, []) := by
  have horder : order = [] := List.Perm.eq_nil (hempty ▸ hord)
  subst horder
  rfl

/-- C6 witness: the no-op theorem applied to a fresh transport and the topic
nosub, for which nothing is registered. -/
theorem callback_unknown_topic_noop_witness :
    Transport.callback (Transport.initState : TransportState Nat Nat) "nosub" []
      idImpl 0 = (Transport.initState, []) :=
  callback_unknown_topic_noop Transport.initState "nosub" idImpl 0 rfl []
    (by decide)

/-- C7: GVProtocol_v1.send_status never resolves the topic, never serializes the
status and never sends: its first statement (protocols.py line 60) evaluates the
unbound name istatus — the parameter is named status — so every call raises
NameError, and GVComm.send_status, which forwards to it, propagates the same
error. This contradicts the claimed behaviour of resolving the status topic,
sending the payload and returning normally. -/
theorem send_status_raises_name_error (device : DeviceInfo) (status : String) :
    GVProtocolV1.sendStatus device status =
      Except.error (PyError.nameError "istatus") ∧
    GVComm.sendStatus device status =
      Except.error (PyError.nameError "istatus") := by
  constructor <;> rfl

/-- C8: GVComm.send_data forwards id_, value, qos and retain as four positional
arguments, but GVProtocol_v1.send_data is declared with only two parameters
besides self (protocols.py line 74), so the forwarded call raises TypeError;
and even the arity-correct direct call sends via transport.send(topic, payload)
with the defaults qos 0 and retain False, so a caller-supplied qos or retain
never reaches the transport. -/
theorem gvcomm_send_data_raises_type_error (device : DeviceInfo)
    (id_ value : String) (qos : Nat) (retain : Bool) :
    GVComm.sendData device id_ value qos retain =
      Except.error (PyError.typeError "send_data() takes 3 positional arguments") ∧
    GVProtocolV1.sendDataCall device [PyVal.str id_, PyVal.str value] =
      Except.ok ⟨SERVICES.data device.id id_,
        "\x7bvalue:\"" ++ value ++ "\"\x7d", 0, false⟩ := by
  constructor <;> rfl

/-- C9: Transport.subscribe updates the registry before invoking the driver
subscription mechanics (gvlib.py lines 199-202), so when the driver raises, the
exception propagates to the caller while the callback remains registered for
the topic: subscribe is not atomic on error. -/
theorem subscribe_registers_before_driver_error {K L E : Type} [DecidableEq K]
    (st : TransportState K L) (topic : String) (cb : K) (e : E) :
    (Transport.subscribe st topic cb (Except.error e)).2 = Except.error e ∧
    cb ∈ dispatchSet
      ((Transport.subscribe st topic cb (Except.error e)).1).callbacks topic := by
  constructor
  · rfl
  · rw [subscribe_fst]
    exact mem_dispatchSet_addCallback st.callbacks topic cb

/-- C10: Transport.remove_listener performs set.remove, which raises KeyError
when the listener is not registered (not a no-op); when the listener is
registered it is removed, it is no longer a member of the listener set, and no
later listener notification is addressed to it. -/
theorem remove_listener_missing_raises {K L E : Type} [DecidableEq L]
    (st : TransportState K L) (l : L) (hN : List.Nodup st.listeners) :
    (l ∉ st.listeners →
      Transport.removeListener st l = Except.error PyError.keyError) ∧
    (l ∈ st.listeners →
      Transport.removeListener st l =
        Except.ok (⟨st.callbacks, st.listeners.erase l⟩ : TransportState K L) ∧
      l ∉ st.listeners.erase l ∧
      ∀ (m : LMethod) (info : Info E) (n : Notification L E),
        n ∈ invokeListeners
          (⟨st.callbacks, st.listeners.erase l⟩ : TransportState K L) m info →
        n.listener ≠ l) := by
  constructor
  · intro hmem
    simp [Transport.removeListener, hmem]
  · intro hmem
    refine ⟨by simp [Transport.removeListener, hmem], hN.not_mem_erase, ?_⟩
    intro m info n hn
    simp only [invokeListeners, List.mem_map] at hn
    obtain ⟨l0, hl0, rfl⟩ := hn
    intro hcontra
    have hl0l : l0 = l := hcontra
    exact hN.not_mem_erase (hl0l ▸ hl0)

/-- C10 witness: on a transport with listeners 1 and 2, removing the
unregistered listener 3 raises KeyError, while removing the registered
listener 2 succeeds and leaves only listener 1. -/
theorem remove_listener_missing_raises_witness :
    Transport.removeListener (⟨[], [1, 2]⟩ : TransportState Nat Nat) 3 =
      Except.error PyError.keyError ∧
    Transport.removeListener (⟨[], [1, 2]⟩ : TransportState Nat Nat) 2 =
      Except.ok (⟨[], [1]⟩ : TransportState Nat Nat) := by
  have h3 := @remove_listener_missing_raises Nat Nat Unit _ ⟨[], [1, 2]⟩ 3 (by decide)
  have h2 := @remove_listener_missing_raises Nat Nat Unit _ ⟨[], [1, 2]⟩ 2 (by decide)
  exact ⟨h3.1 (by decide), ((h2.2 (by decide)).1).trans rfl⟩

end GVLib
